import Mathlib

/-!
Shallow embedding of the AgileQuery SQL builder (clause parsers in
`src/query/utils.js`, statement builders in `src/query/selectQuery.js`,
`src/query/insertQuery.js`, `src/query/deleteSQL.js`, `updateSQL` bundled in
`src/query/utils.js`, and the minified `selectQuery` bundle in
`src/unnamed/part_001`).

Modelling conventions:
- JavaScript strings are Lean `String`s; template interpolation is `++`.
- Absent (`undefined`) optional inputs are `Option.none`; JavaScript string
  truthiness (`""` is falsy) is made explicit where the source tests it.
- Typed numeric inputs are `Int` (all numbers in play are integers).
- A JavaScript object used as an ordered record is a `List (String × _)` of
  its entries, in insertion order (matching `Object.entries`).
- Functions that can `throw` return `Except String _`, the error payload
  being the thrown message.
-/

namespace AgileQuery

/-- JavaScript truthiness of an optional string: `undefined`/`null`/`""` are falsy. -/
def jsTruthy : Option String → Bool
  | Option.none => false
  | some s => !(s == "")

/-- JavaScript `a || b` on an optional string `a` with string fallback `b`. -/
def jsOr (a : Option String) (b : String) : String :=
  match a with
  | Option.none => b
  | some s => if s == "" then b else s

/-- A scalar value as it appears in typed inputs (`string | number | boolean`). -/
inductive Scalar where
  | str (s : String)
  | num (n : Int)
  | bool (b : Bool)
deriving DecidableEq, Repr

/-- `JSON.stringify` on a scalar. String escaping is not modelled: all strings
in play contain no characters that `JSON.stringify` would escape. -/
def jsonStringify : Scalar → String
  | .str s => "\"" ++ s ++ "\""
  | .num n => toString n
  | .bool b => if b then "true" else "false"

/-- Template-interpolation (`` `${v}` ``) of a scalar. -/
def templateStr : Scalar → String
  | .str s => s
  | .num n => toString n
  | .bool b => if b then "true" else "false"

/-! ### Sort specifications (`parseSort`, src/query/utils.js lines 7-32) -/

/-- Value of one top-level entry of a sort mapping: a direction number, or a
nested column→direction mapping (the typed surface is
`Record<string, 1 | -1>` at either level). -/
inductive SortVal where
  | num (d : Int)
  | obj (cols : List (String × Int))
deriving DecidableEq, Repr

/-- A sort specification: absent, a raw string, or a mapping. -/
inductive SortSpec where
  | none
  | str (s : String)
  | map (entries : List (String × SortVal))
deriving DecidableEq, Repr

/-- JavaScript falsiness of a sort specification (`!sort`). -/
def SortSpec.isFalsy : SortSpec → Bool
  | .none => true
  | .str s => s == ""
  | .map _ => false

/-- `parseSort` from src/query/utils.js lines 7-32. -/
def parseSort (sort : SortSpec) : String :=
  match sort with
  | .none => ""
  | .str s =>
      if s == "" then ""  -- `!sort` guard: the empty string is falsy
      else " ORDER BY " ++ s
  | .map entries =>
      if entries.length ≠ 0 then
        let query := String.intercalate ", "
          (((entries.map (fun r =>
            match r.2 with
            | SortVal.num columns =>
                r.1 ++ " " ++ (if columns = 1 then "ASC" else "DESC")
            | SortVal.obj columns =>
                String.intercalate ", "
                  (columns.map (fun c =>
                    r.1 ++ "." ++ c.1 ++ " " ++ (if c.2 = 1 then "ASC" else "DESC"))))).filter
            (fun s => !(s == ""))))
        " ORDER BY " ++ query
      else ""

/-! ### Column / group-by specifications
(`parsecolumns` lines 100-129, `parseGroupBy` lines 33-62 of src/query/utils.js) -/

/-- Value of one entry of a column/group-by mapping: a plain string or an
array of column names (the typed surface is
`{ [table]: string[] } | { extra?: string | string[] }`). -/
inductive ColVal where
  | str (s : String)
  | arr (xs : List String)
deriving DecidableEq, Repr

/-- A column / group-by specification: absent, a raw string, an array of
strings, or a per-table mapping. -/
inductive ColsSpec where
  | none
  | str (s : String)
  | arr (xs : List String)
  | map (entries : List (String × ColVal))
deriving DecidableEq, Repr

/-- JavaScript falsiness of a column specification (`!columns`). -/
def ColsSpec.isFalsy : ColsSpec → Bool
  | .none => true
  | .str s => s == ""
  | .arr _ => false
  | .map _ => false

/-- The `Object.entries(...).forEach` accumulation shared by the mapping case
of `parsecolumns` and `parseGroupBy` (src/query/utils.js lines 48-58 and
115-125).  Note that for the reserved key `extra` the source pushes
`columns.join(", ")` when the value is an array but pushes `table` — the key
itself, i.e. the literal string `"extra"` — when it is not. -/
def mapClauses (entries : List (String × ColVal)) : List String :=
  entries.foldl (fun clauses kv =>
    let table := kv.1
    let columns := kv.2
    if table == "extra" then
      clauses ++ [match columns with
        | ColVal.arr xs => String.intercalate ", " xs
        | ColVal.str _ => table]
    else
      match columns with
      | ColVal.arr xs => clauses ++ xs.map (fun column => table ++ "." ++ column)
      | ColVal.str _ => clauses) []

/-- `parsecolumns` from src/query/utils.js lines 100-129 (the select-list
renderer; the minified bundle refers to the same function as `parseColumns`). -/
def parsecolumns (columns : ColsSpec) : String :=
  match columns with
  | ColsSpec.none => ""
  | ColsSpec.str s => if s == "" then "" else s
  | ColsSpec.arr xs => String.intercalate ", " xs
  | ColsSpec.map entries =>
      let clauses := mapClauses entries
      if clauses.length > 0 then String.intercalate ", " clauses else ""

/-- `parseGroupBy` from src/query/utils.js lines 33-62. -/
def parseGroupBy (groupBy : ColsSpec) : String :=
  match groupBy with
  | ColsSpec.none => ""
  | ColsSpec.str s => if s == "" then "" else " GROUP BY " ++ s
  | ColsSpec.arr xs => " GROUP BY " ++ String.intercalate ", " xs
  | ColsSpec.map entries =>
      let clauses := mapClauses entries
      if clauses.length > 0 then " GROUP BY " ++ String.intercalate ", " clauses else ""

/-! ### Join specifications (`parseJoins`, src/query/utils.js lines 63-99) -/

/-- A join descriptor.  The reserved properties `type`, `on`, `operator` are
modelled as optional fields (`Option.isSome` is JavaScript's `'key' in join`);
`others` holds the remaining entries in insertion order — including a possible
`table` entry, which the source reads through `join?.table` but does NOT
exclude from the table-column entries. -/
structure JoinDesc where
  type : Option String := Option.none
  -- the source property is named `on`; `on` is reserved in Lean, hence `onCond`
  onCond : Option String := Option.none
  operator : Option String := Option.none
  others : List (String × String) := []
deriving DecidableEq, Repr

/-- The key filter `([key]) => key !== "type" && key !== "on" && key !== "operator"`
applied to the descriptor's entries in both paths of `parseJoins`.  In this
embedding the reserved properties are separate fields, so `others` never
contains them and the filter is kept only to mirror the source. -/
def notReservedKey (k : String) : Bool :=
  !(k == "type") && !(k == "on") && !(k == "operator")

/-- `join?.table`: the value of a `table` entry of the descriptor, if any. -/
def JoinDesc.tableProp (join : JoinDesc) : Option String :=
  (join.others.find? (fun kv => kv.1 == "table")).map Prod.snd

/-- The body of the `joins?.map((join) => ...)` callback of `parseJoins`
(src/query/utils.js lines 66-96), one join descriptor to one clause. -/
def renderJoin (join : JoinDesc) : Except String String :=
  if join.type.isSome then
    -- Case 1: join carries a `type` property
    let type := join.type.getD ""
    let operator := join.operator.getD "="
    let tableEntries := join.others.filter (fun kv => notReservedKey kv.1)
    if jsTruthy join.onCond && !(tableEntries.length == 0) then
      -- `on` is truthy and there is at least one non-reserved entry
      let table := join.tableProp
      Except.ok (" " ++ type ++ " " ++ jsOr table ((tableEntries.headD ("", "")).1)
        ++ " ON " ++ join.onCond.getD "")
    else if tableEntries.length ≠ 2 then
      Except.error ("❌JOIN requires exactly two tables for a relation, but found "
        ++ toString tableEntries.length ++ " or condition not found")
    else
      match tableEntries with
      | [(table1, column1), (table2, column2)] =>
          Except.ok (" " ++ type ++ " " ++ table2 ++ " ON " ++ table1 ++ "." ++ column1
            ++ " " ++ operator ++ " " ++ table2 ++ "." ++ column2)
      | _ => Except.error "unreachable: guarded by tableEntries.length = 2"
  else
    -- Case 2: shorthand form (no `type` property)
    let tableEntries := join.others.filter (fun kv => notReservedKey kv.1)
    if join.onCond.isSome && !(tableEntries.length == 0) then
      -- `'on' in join` tests presence, not truthiness
      Except.ok (" JOIN " ++ jsOr join.tableProp ((tableEntries.headD ("", "")).1)
        ++ " ON " ++ join.onCond.getD "")
    else if tableEntries.length ≠ 2 then
      Except.error ("❌ JOIN shorthand requires exactly two tables, but found "
        ++ toString tableEntries.length ++ " or condition not found")
    else
      match tableEntries with
      | [(table1, column1), (table2, column2)] =>
          Except.ok (" JOIN " ++ table2 ++ " ON " ++ table1 ++ "." ++ column1
            ++ " = " ++ table2 ++ "." ++ column2)
      | _ => Except.error "unreachable: guarded by tableEntries.length = 2"

/-- `parseJoins` from src/query/utils.js lines 63-99.  A thrown error inside
the `map` callback aborts the whole call. -/
def parseJoins (joins : List JoinDesc) : Except String String := do
  if joins.length = 0 then
    return ""
  let joinClauses ← joins.mapM renderJoin
  return String.intercalate " " joinClauses

/-- `joins ? parseJoins(joins) : ""` / `if (joins) ...` — the optional-joins
wrapper used by every statement builder. -/
def parseJoinsOpt : Option (List JoinDesc) → Except String String
  | Option.none => Except.ok ""
  | some js => parseJoins js

/-! ### SELECT builder (src/query/selectQuery.js, and src/unnamed/part_001) -/

/-- A number-or-string as accepted for `limit`/`skip`/`limit` options. -/
inductive NumStr where
  | num (n : Int)
  | str (s : String)
deriving DecidableEq, Repr

/-- JavaScript truthiness of a number-or-string (`0` and `""` are falsy). -/
def NumStr.isTruthy : NumStr → Bool
  | .num n => !(n == 0)
  | .str s => !(s == "")

/-- Template interpolation of a number-or-string. -/
def NumStr.render : NumStr → String
  | .num n => toString n
  | .str s => s

/-- `limitSkip` option of the SELECT builder. -/
structure LimitSkip where
  limit : Option NumStr := Option.none
  skip : Option NumStr := Option.none
deriving DecidableEq, Repr

/-- One element of `subQueries`: `{query, as?}`. -/
structure SubQuery where
  query : String
  -- the source property is named `as`; `as` would be awkward in Lean, hence `asName`
  asName : Option String := Option.none
deriving DecidableEq, Repr

/-- `recursiveCTE` option: `{baseCase, recursiveCase, alias}`. -/
structure RecursiveCTE where
  baseCase : String
  recursiveCase : String
  -- the source property is named `alias` (reserved in Lean), hence `aliasName`
  aliasName : String
deriving DecidableEq, Repr

/-- One aggregate descriptor: the optional `alias` property plus the remaining
function-name→column entries (`const { alias, ...functions } = agg`). -/
structure AggDesc where
  -- the source property is named `alias` (reserved in Lean), hence `aliasName`
  aliasName : Option String := Option.none
  functions : List (String × String) := []
deriving DecidableEq, Repr

/-- The `aggregates_alias` lookup table of src/query/selectQuery.js lines 5-11. -/
def aggregates_alias : List (String × String) :=
  [("MIN", "minimum"), ("MAX", "maximum"), ("SUM", "summation"),
   ("COUNT", "count"), ("AVG", "average")]

/-- `aggregates_alias[func] || func`. -/
def aggAliasLookup (func : String) : String :=
  match aggregates_alias.find? (fun kv => kv.1 == func) with
  | some kv => kv.2
  | Option.none => func

/-- The body of the `aggregates.map((agg) => ...)` callback
(src/query/selectQuery.js lines 94-109, identically in the minified bundle). -/
def renderAgg (agg : AggDesc) : String :=
  if jsTruthy agg.aliasName then
    let functionStr := String.intercalate ", "
      (agg.functions.map (fun fc => fc.1 ++ "(" ++ fc.2 ++ ")"))
    functionStr ++ " AS " ++ agg.aliasName.getD ""
  else
    String.intercalate ", "
      (agg.functions.map (fun fc => fc.1 ++ "(" ++ fc.2 ++ ") AS " ++ aggAliasLookup fc.1))

/-- Configuration object of the SELECT builder. -/
structure SelectParams where
  distinct : Bool := false
  sort : SortSpec := SortSpec.none
  limitSkip : Option LimitSkip := Option.none
  columns : ColsSpec := ColsSpec.none
  subQueries : Option (List SubQuery) := Option.none
  groupBy : ColsSpec := ColsSpec.none
  recursiveCTE : Option RecursiveCTE := Option.none
  aggregates : Option (List AggDesc) := Option.none
  table : Option String := Option.none
  whereClause : String := ""   -- source property `where` (reserved in Lean)
  having : String := ""
  joins : Option (List JoinDesc) := Option.none
deriving DecidableEq, Repr

/-- `` `FROM ${main_table}` `` when `table` may be `undefined`:
JavaScript interpolates `undefined` as the text `"undefined"`. -/
def jsTemplateOpt : Option String → String
  | some s => s
  | Option.none => "undefined"

/-- The subquery renderings appended to the select-list
(src/query/selectQuery.js lines 84-92; identical in the minified bundle):
note the unconditional space before the joined subquery statement. -/
def subQueryPart (select : String) (subs : List SubQuery) : String :=
  let subQueryStatement := String.intercalate ", "
    (subs.map (fun subQuery =>
      "(" ++ subQuery.query ++ ")"
        ++ (if jsTruthy subQuery.asName then " AS " ++ subQuery.asName.getD "" else "")))
  (if select == "" then "" else ", ") ++ " " ++ subQueryStatement

/-- JavaScript `String.prototype.trim()`: strip leading and trailing
whitespace.  (Implemented structurally on the character list so that closed
computations reduce; Lean's own `String.trim` is extensionally the same on
the ASCII-whitespace strings in play.) -/
def jsTrim (s : String) : String :=
  ⟨((s.data.dropWhile Char.isWhitespace).reverse.dropWhile Char.isWhitespace).reverse⟩

/-- The clause pipeline shared verbatim by both SELECT implementations from
the `FROM` clause on: joins, `WHERE`, `GROUP BY`, `HAVING`, `ORDER BY`,
`LIMIT`/`OFFSET`, final `.trim()`. -/
def selectTail (config : SelectParams) (queryHead : String) (main_table : Option String) :
    Except String String := do
  let query := queryHead ++ " FROM " ++ jsTemplateOpt main_table
  let joinsFragment ← parseJoinsOpt config.joins
  let query := query ++ joinsFragment
  let query := if config.whereClause ≠ "" then query ++ " WHERE " ++ config.whereClause else query
  let query := if !config.groupBy.isFalsy then query ++ parseGroupBy config.groupBy else query
  let query := if config.having ≠ "" then query ++ " HAVING " ++ config.having else query
  let query := if !config.sort.isFalsy then query ++ parseSort config.sort else query
  let query :=
    match config.limitSkip with
    | some ls =>
        let q := match ls.limit with
          | some l => if l.isTruthy then query ++ " LIMIT " ++ l.render else query
          | Option.none => query
        match ls.skip with
        | some s => if s.isTruthy then q ++ " OFFSET " ++ s.render else q
        | Option.none => q
    | Option.none => query
  return jsTrim query

/-- The `WITH RECURSIVE` preamble and the table substitution
(src/query/selectQuery.js lines 63-73). -/
def ctePreamble (config : SelectParams) : String × Option String :=
  match config.recursiveCTE with
  | some cte =>
      ("WITH RECURSIVE " ++ cte.aliasName ++ " AS (\n            " ++ cte.baseCase
        ++ "\n            UNION ALL\n            " ++ cte.recursiveCase ++ "\n        ) ",
       some cte.aliasName)
  | Option.none => ("", config.table)

/-- `selectQuery` from src/query/selectQuery.js lines 61-147.  Note the
`else` branch at lines 112-114: when `aggregates` is falsy the already
computed select-list is overwritten with `"*"`. -/
def selectQuery (config : SelectParams) : Except String String := do
  let (recursiveCTEQuery, main_table) := ctePreamble config
  let query := recursiveCTEQuery ++ "SELECT "
  let query := if config.distinct then query ++ "DISTINCT " else query
  let select := if !config.columns.isFalsy then parsecolumns config.columns else ""
  let select :=
    match config.subQueries with
    | some subs => select ++ subQueryPart select subs
    | Option.none => select
  let select :=
    match config.aggregates with
    | some aggs =>
        let aggStrings := aggs.map renderAgg
        select ++ (if select == "" then "" else ", ") ++ String.intercalate ", " aggStrings
    | Option.none => "*"   -- `else { select = "*" }`: columns/subqueries are discarded
  selectTail config (query ++ select) main_table

/-- `selectQuery` from the minified bundle src/unnamed/part_001.  The only
difference from src/query/selectQuery.js is the select-list: there is no
`else` overwrite, and the `FROM` clause uses `` `${I||"*"}` `` — `*` exactly
when the accumulated select-list is empty.  (The bundle imports its column
parser as `parseColumns`; it is the same utils column parser, `parsecolumns`.) -/
def selectQueryMin (config : SelectParams) : Except String String := do
  let (recursiveCTEQuery, main_table) := ctePreamble config
  let query := recursiveCTEQuery ++ "SELECT "
  let query := if config.distinct then query ++ "DISTINCT " else query
  let selectList := if !config.columns.isFalsy then parsecolumns config.columns else ""
  let selectList :=
    match config.subQueries with
    | some subs => selectList ++ subQueryPart selectList subs
    | Option.none => selectList
  let selectList :=
    match config.aggregates with
    | some aggs =>
        let aggStrings := aggs.map renderAgg
        selectList ++ (if selectList == "" then "" else ", ") ++ String.intercalate ", " aggStrings
    | Option.none => selectList
  selectTail config (query ++ (if selectList == "" then "*" else selectList)) main_table

/-! ### INSERT builder (src/query/insertQuery.js) -/

/-- `insertData`: a single row or an array of rows; a row is the ordered list
of column→scalar entries. -/
inductive InsertData where
  | row (r : List (String × Scalar))
  | rows (rs : List (List (String × Scalar)))
deriving DecidableEq, Repr

/-- Parameters of `insertQuery` (src/query/insertQuery.js line 58). -/
structure InsertParams where
  table : String := ""
  insertData : Option InsertData := Option.none
  dateFields : Option (List String) := Option.none
  uniqueColumn : Option String := Option.none   -- default `null`
  onDuplicateUpdateFields : List String := []
deriving DecidableEq, Repr

/-- `JSON.stringify(Object.values(row)).slice(1, -1)`: the row's values
JSON-serialized and joined by a bare comma (stringifying an array inserts no
spaces), with the surrounding brackets stripped. -/
def rowValuesList (row : List (String × Scalar)) : String :=
  String.intercalate "," (row.map (fun kv => jsonStringify kv.2))

/-- The column list and values clause of `insertQuery`
(src/query/insertQuery.js lines 68-81), shared by all three statement forms.
`date` is `['CURRENT_TIMESTAMP', ...]` (one per date field) when `dateFields`
is a non-empty array, else undefined.  The multi-row path reads
`Object.keys(insertData[0])`; on an empty rows array `insertData[0]` is
`undefined` and `Object.keys(undefined)` throws a `TypeError`. -/
def insertColsVals (insertData : InsertData) (dateFields : Option (List String)) :
    Except String (String × String) :=
  let date : Option (List String) :=
    match dateFields with
    | some fs => if fs.length ≠ 0 then some (List.replicate fs.length "CURRENT_TIMESTAMP")
                 else Option.none
    | Option.none => Option.none
  let dateFieldsJoined := String.intercalate ", " (dateFields.getD [])
  match insertData with
  | InsertData.rows rs =>
      match rs with
      | [] => Except.error "TypeError: Cannot convert undefined or null to object"
      | firstRow :: _ =>
          let columns := "(" ++ String.intercalate ", " (firstRow.map Prod.fst)
            ++ (if date.isSome then "," ++ dateFieldsJoined else "") ++ ")"
          let values := String.intercalate ", "
            (rs.map (fun row => "(" ++ rowValuesList row
              ++ (match date with
                  | some d => ", " ++ String.intercalate ", " d
                  | Option.none => "") ++ ")"))
          Except.ok (columns, values)
  | InsertData.row r =>
      let columns := "(" ++ String.intercalate ", " (r.map Prod.fst)
        ++ (if date.isSome then "," ++ dateFieldsJoined else "") ++ ")"
      let values := "(" ++ rowValuesList r
        ++ (match date with
            | some d => "," ++ String.intercalate ", " d
            | Option.none => "") ++ ")"
      Except.ok (columns, values)

/-- `insertQuery` from src/query/insertQuery.js lines 58-97. -/
def insertQuery (p : InsertParams) : Except String String := do
  match p.insertData with
  | Option.none => Except.error "❌ Insert data array is empty"
  | some d =>
      let (columns, values) ← insertColsVals d p.dateFields
      if jsTruthy p.uniqueColumn then
        return "INSERT IGNORE INTO " ++ p.table ++ " " ++ columns ++ " VALUES " ++ values
      else if p.onDuplicateUpdateFields.length > 0 then
        let updateFields := String.intercalate ", "
          (p.onDuplicateUpdateFields.map (fun field => field ++ " = VALUES(" ++ field ++ ")"))
        return "INSERT INTO " ++ p.table ++ " " ++ columns ++ " VALUES " ++ values
          ++ " ON DUPLICATE KEY UPDATE " ++ updateFields
      else
        return "INSERT INTO " ++ p.table ++ " " ++ columns ++ " VALUES " ++ values

/-! ### UPDATE builder (`updateSQL`, bundled after src/query/utils.js) -/

/-- A value of one `updateData` entry: a scalar, or a conditional descriptor
`{case: [{when, then}, ...], default}`. -/
inductive UpdateVal where
  | scalar (v : Scalar)
  | cond (cases : List (String × Scalar)) (dflt : Scalar)
deriving DecidableEq, Repr

/-- Parameters of `updateSQL` (with the source's defaults). -/
structure UpdateParams where
  table : String := ""
  joins : List JoinDesc := []
  updateData : List (String × UpdateVal) := []
  whereClause : String := ""   -- source property `where` (reserved in Lean)
  nullValues : List String := []
  defaultValues : List String := []
  limit : Option NumStr := Option.none
  sort : SortSpec := SortSpec.none
  fromSubQuery : List (String × String) := []
  setCalculations : List (String × String) := []
deriving DecidableEq, Repr

/-- The body of the `Object.entries(updateData)?.map(([column, value]) => ...)`
callback of `updateSQL` (lines 315-329 of the bundled source): a CASE
expression for a conditional descriptor, otherwise `column = literal` with
numbers/booleans interpolated raw and strings trimmed then JSON-quoted. -/
def renderUpdateEntry (entry : String × UpdateVal) : String :=
  let column := entry.1
  match entry.2 with
  | UpdateVal.cond cases dflt =>
      let caseStatement := String.intercalate " "
        (cases.map (fun c => "WHEN " ++ c.1 ++ " THEN " ++ jsonStringify c.2))
      column ++ " = CASE " ++ caseStatement ++ " ELSE " ++ jsonStringify dflt ++ " END"
  | UpdateVal.scalar v =>
      match v with
      | Scalar.num n => column ++ " = " ++ toString n
      | Scalar.bool b => column ++ " = " ++ (if b then "true" else "false")
      | Scalar.str s => column ++ " = " ++ jsonStringify (Scalar.str s.trim)

/-- `updateInfo += updateInfo ? `, ${more}` : more` — the group-appending
step used for calculations, subqueries, NULL and DEFAULT assignments. -/
def appendGroup (updateInfo more : String) : String :=
  if updateInfo == "" then more else updateInfo ++ ", " ++ more

/-- `updateSQL` from the bundled source lines 307-371. -/
def updateSQL (p : UpdateParams) : Except String String := do
  if p.table == "" then
    Except.error "⚠️ The `table` parameter is required."
  else if p.whereClause == "" then
    Except.error "⚠️ The `where` parameter is required."
  else
    let updateInfo := String.intercalate ","
      (p.updateData.map renderUpdateEntry)
    let updateInfo :=
      if p.setCalculations.length ≠ 0 then
        appendGroup updateInfo (String.intercalate ", "
          (p.setCalculations.map (fun kv => kv.1 ++ " = " ++ kv.2)))
      else updateInfo
    let updateInfo :=
      if p.fromSubQuery.length ≠ 0 then
        appendGroup updateInfo (String.intercalate ", "
          (p.fromSubQuery.map (fun kv => kv.1 ++ " = " ++ kv.2)))
      else updateInfo
    let updateInfo :=
      if p.nullValues.length ≠ 0 then
        appendGroup updateInfo (String.intercalate ", "
          (p.nullValues.map (fun column => column ++ " = NULL")))
      else updateInfo
    let updateInfo :=
      if p.defaultValues.length ≠ 0 then
        appendGroup updateInfo (String.intercalate ", "
          (p.defaultValues.map (fun column => column ++ " = DEFAULT")))
      else updateInfo
    let joinStatements ← parseJoins p.joins
    let query := "UPDATE" ++ joinStatements ++ " " ++ p.table ++ " SET " ++ updateInfo
    let query := if p.whereClause ≠ "" then query ++ " WHERE " ++ p.whereClause else query
    let query := if !p.sort.isFalsy then query ++ parseSort p.sort else query
    let query :=
      match p.limit with
      | some l => if l.isTruthy then query ++ " LIMIT " ++ l.render else query
      | Option.none => query
    return query

/-! ### DELETE builder (src/query/deleteSQL.js) -/

/-- Parameters of `deleteSQL` (src/query/deleteSQL.js line 46); `table` and
`where` absent are modelled as `""` (both are falsy). -/
structure DeleteParams where
  table : String := ""
  whereClause : String := ""   -- source property `where` (reserved in Lean)
  joins : Option (List JoinDesc) := Option.none
  limit : Option NumStr := Option.none
  sort : SortSpec := SortSpec.none
deriving DecidableEq, Repr

/-- `deleteSQL` from src/query/deleteSQL.js lines 46-71. -/
def deleteSQL (p : DeleteParams) : Except String String := do
  if p.table == "" then
    Except.error "⚠️ The `table` parameter is required."
  else if p.whereClause == "" then
    Except.error "⚠️ The `where` parameter is required."
  else
    let query := "DELETE " ++ p.table ++ " FROM " ++ p.table
    let joinsFragment ← parseJoinsOpt p.joins
    let query := query ++ joinsFragment
    let query := if p.whereClause ≠ "" then query ++ " WHERE " ++ p.whereClause else query
    let query := if !p.sort.isFalsy then query ++ parseSort p.sort else query
    let query :=
      match p.limit with
      | some l => if l.isTruthy then query ++ " LIMIT " ++ l.render else query
      | Option.none => query
    return query

/-! ### Named renderings used by the claims -/

/-- The error message of the explicit-type path of `parseJoins`
(src/query/utils.js line 77), parameterized by the pair count found. -/
def explicitJoinErrMsg (n : Nat) : String :=
  "❌JOIN requires exactly two tables for a relation, but found " ++ toString n
    ++ " or condition not found"

/-- The error message of the shorthand path of `parseJoins`
(src/query/utils.js line 91), parameterized by the pair count found. -/
def shorthandJoinErrMsg (n : Nat) : String :=
  "❌ JOIN shorthand requires exactly two tables, but found " ++ toString n
    ++ " or condition not found"

/-- Claim-side direction token (from the specification's words): `ASC` iff
the numeric direction is exactly 1, `DESC` for every other number. -/
def dirToken (d : Int) : String := if d = 1 then "ASC" else "DESC"

/-- Claim-side rendering of one top-level sort-mapping entry: one
`name token` rendering per leaf — `<key> <token>` for a flat entry,
`<key>.<column> <token>` per nested column, joined with `", "`. -/
def renderSortEntry (e : String × SortVal) : String :=
  match e.2 with
  | SortVal.num d => e.1 ++ " " ++ dirToken d
  | SortVal.obj cols =>
      String.intercalate ", "
        (cols.map (fun c => e.1 ++ "." ++ c.1 ++ " " ++ dirToken c.2))

/-- The select-list accumulated from columns, subqueries and aggregates — the
value both SELECT implementations compute before the `FROM` clause (the
minified bundle's `I`; src's `select` as long as `aggregates` is present). -/
def selectListOf (config : SelectParams) : String :=
  let select := if !config.columns.isFalsy then parsecolumns config.columns else ""
  let select :=
    match config.subQueries with
    | some subs => select ++ subQueryPart select subs
    | Option.none => select
  match config.aggregates with
  | some aggs =>
      select ++ (if select == "" then "" else ", ")
        ++ String.intercalate ", " (aggs.map renderAgg)
  | Option.none => select

/-! ## Helper lemmas -/

/-- `String.intercalate` on a one-element list is that element. -/
theorem intercalate_singleton (s a : String) : String.intercalate s [a] = a := rfl

/-- `parseJoins` on one descriptor is exactly that descriptor's rendering. -/
theorem parseJoins_singleton (j : JoinDesc) : parseJoins [j] = renderJoin j := by
  cases h : renderJoin j <;>
    simp [parseJoins, List.mapM.loop, h, intercalate_singleton]

/-- The second character of the explicit-path message is `J` for any count. -/
theorem explicitJoinErrMsg_char (n : Nat) : (explicitJoinErrMsg n).data[1]? = some 'J' := by
  simp only [explicitJoinErrMsg, String.data_append, List.append_assoc]
  rw [List.getElem?_append_left]
  · decide
  · decide

/-- The second character of the shorthand-path message is a space for any count. -/
theorem shorthandJoinErrMsg_char (n : Nat) : (shorthandJoinErrMsg n).data[1]? = some ' ' := by
  simp only [shorthandJoinErrMsg, String.data_append, List.append_assoc]
  rw [List.getElem?_append_left]
  · decide
  · decide

/-- The two `parseJoins` error messages are distinct, whatever counts they
report. -/
theorem joinErrMsg_distinct (n m : Nat) : explicitJoinErrMsg n ≠ shorthandJoinErrMsg m := by
  intro h
  have h1 := explicitJoinErrMsg_char n
  rw [h, shorthandJoinErrMsg_char m] at h1
  exact absurd h1 (by decide)

/-! ## Claims -/

/-- C1: the claim states the select-list of `selectQuery` is the ordered
concatenation of parsed columns, subquery renderings and aggregate renderings,
with `*` exactly when that concatenation is empty — in particular columns
without aggregates are kept.  The source's `else` branch
(src/query/selectQuery.js lines 112-114) instead overwrites the select-list
with `*` whenever `aggregates` is absent: with `columns: 'a'` and no
aggregates the parsed columns fragment is `"a"` (non-empty), yet the emitted
statement is `SELECT * FROM t`, not `SELECT a FROM t`. -/
theorem C1_columns_discarded_without_aggregates :
    parsecolumns (ColsSpec.str "a") = "a" ∧
    selectQuery { table := some "t", columns := ColsSpec.str "a" } =
      Except.ok "SELECT * FROM t" ∧
    ("SELECT * FROM t" : String) ≠ "SELECT a FROM t" :=
  ⟨rfl, rfl, by decide⟩

/-- C2: the claim states a string-valued reserved key `extra` is emitted
verbatim.  In the mapping case of `parsecolumns`/`parseGroupBy`
(src/query/utils.js lines 49-53 and 116-120) an array value is joined with
`", "`, but a string value pushes `table` — the key itself — so the output is
the literal text `extra`, not the value. -/
theorem C2_extra_string_emits_literal_extra :
    parsecolumns (ColsSpec.map [("extra", ColVal.str "COUNT(*) AS total")]) = "extra" ∧
    parseGroupBy (ColsSpec.map [("extra", ColVal.str "created_at")]) = " GROUP BY extra" ∧
    parsecolumns (ColsSpec.map [("extra", ColVal.arr ["a", "b"])]) = "a, b" ∧
    ("extra" : String) ≠ "COUNT(*) AS total" :=
  ⟨rfl, rfl, rfl, by decide⟩

/-- C4: the claim's required-field validations hold for UPDATE and DELETE
(`table`/`where` missing or empty throw immediately) and for an absent
`insertData`; but an *empty* `insertData` object is not rejected —
`insertQuery` only tests `!insertData`, an empty object is truthy, and the
call returns the string `INSERT INTO t () VALUES ()` instead of raising
(contradicting the function's own `@throws` documentation).  An empty rows
array does abort, but with a `TypeError` from `Object.keys(insertData[0])`,
before any fragment is returned. -/
theorem C4_required_field_validation :
    updateSQL { whereClause := "id = 1" } =
      Except.error "⚠️ The `table` parameter is required." ∧
    updateSQL { table := "t" } =
      Except.error "⚠️ The `where` parameter is required." ∧
    deleteSQL { whereClause := "id = 1" } =
      Except.error "⚠️ The `table` parameter is required." ∧
    deleteSQL { table := "t" } =
      Except.error "⚠️ The `where` parameter is required." ∧
    insertQuery { table := "t" } =
      Except.error "❌ Insert data array is empty" ∧
    insertQuery { table := "t", insertData := some (InsertData.rows []) } =
      Except.error "TypeError: Cannot convert undefined or null to object" ∧
    insertQuery { table := "t", insertData := some (InsertData.row []) } =
      Except.ok "INSERT INTO t () VALUES ()" :=
  ⟨rfl, rfl, rfl, rfl, rfl, rfl, rfl⟩

/-- C5 counterexample: the claim states every descriptor with neither a
truthy `on` (alongside a non-reserved key) nor exactly two table-column pairs
raises an error.  The shorthand path tests `'on' in join` — presence, not
truthiness — so a descriptor with `on: ""` and a single pair renders the
fragment `" JOIN a ON "` instead of raising. -/
theorem C5_counterexample_empty_on_shorthand :
    jsTruthy (some "") = false ∧
    parseJoins [{ onCond := some "", others := [("a", "x")] }] =
      Except.ok " JOIN a ON " :=
  ⟨rfl, rfl⟩

/-- C5 (amended): for every join descriptor whose non-reserved entries do not
number exactly two and whose `on` condition does not divert to the `on`
rendering path — `on` truthy in the explicit-type path, `on` merely *present*
in the shorthand path, in both cases alongside at least one non-reserved
entry — `parseJoins` raises an error whose message states the actual count of
pairs found, with a distinct message for the explicit-type path versus the
shorthand path, and no join fragment is returned. -/
theorem C5_malformed_join_error (j : JoinDesc)
    (hn : (j.others.filter (fun kv => notReservedKey kv.1)).length ≠ 2)
    (hon : ((if j.type.isSome then jsTruthy j.onCond else j.onCond.isSome)
      && !((j.others.filter (fun kv => notReservedKey kv.1)).length == 0)) = false) :
    parseJoins [j] = Except.error
      (if j.type.isSome then
        explicitJoinErrMsg (j.others.filter (fun kv => notReservedKey kv.1)).length
       else
        shorthandJoinErrMsg (j.others.filter (fun kv => notReservedKey kv.1)).length) ∧
    (∀ n m : Nat, explicitJoinErrMsg n ≠ shorthandJoinErrMsg m) := by
  refine ⟨?_, joinErrMsg_distinct⟩
  rw [parseJoins_singleton]
  rcases htype : j.type with _ | ty
  · have hon' : (j.onCond.isSome
        && !((j.others.filter (fun kv => notReservedKey kv.1)).length == 0)) = false := by
      simpa [htype] using hon
    simp only [renderJoin, htype, Option.isSome_none, Bool.false_eq_true, if_false]
    rw [if_neg, if_pos hn]
    · rfl
    · intro hc
      rw [hon'] at hc
      exact absurd hc (by simp)
  · have hon' : (jsTruthy j.onCond
        && !((j.others.filter (fun kv => notReservedKey kv.1)).length == 0)) = false := by
      simpa [htype] using hon
    simp only [renderJoin, htype, Option.isSome_some, if_true]
    rw [if_neg, if_pos hn]
    · rfl
    · intro hc
      rw [hon'] at hc
      exact absurd hc (by simp)

/-- C5 witness: a shorthand descriptor with three table-column pairs and no
`on` fails with the shorthand message reporting the count 3. -/
theorem C5_malformed_join_error_witness :
    parseJoins [{ others := [("a", "x"), ("b", "y"), ("c", "z")] }] =
      Except.error "❌ JOIN shorthand requires exactly two tables, but found 3 or condition not found" := by
  have h := (C5_malformed_join_error
    { others := [("a", "x"), ("b", "y"), ("c", "z")] } (by decide) (by decide)).1
  exact h

/-- C8: an `updateData` entry carrying a `case` branch list and a `default`
renders as `<column> = CASE WHEN <when> THEN <then> ... ELSE <default> END`
with JSON-serialized literals; the documented employee/salary example
produces a statement containing
`CASE WHEN position = 'Manager' THEN 100000 ELSE 50000 END`. -/
theorem C8_case_when_rendering :
    (∀ (column : String) (cases : List (String × Scalar)) (dflt : Scalar),
      renderUpdateEntry (column, UpdateVal.cond cases dflt) =
        column ++ " = CASE "
          ++ String.intercalate " "
            (cases.map (fun c => "WHEN " ++ c.1 ++ " THEN " ++ jsonStringify c.2))
          ++ " ELSE " ++ jsonStringify dflt ++ " END") ∧
    updateSQL
      { table := "employees",
        updateData := [("salary",
          UpdateVal.cond [("position = 'Manager'", Scalar.num 100000)] (Scalar.num 50000))],
        whereClause := "id = 1" } =
      Except.ok ("UPDATE employees SET salary = "
        ++ "CASE WHEN position = 'Manager' THEN 100000 ELSE 50000 END"
        ++ " WHERE id = 1") :=
  ⟨fun _ _ _ => rfl, rfl⟩

/-- C3 counterexample: the claim states the supplied `operator` attribute is
honored in the shorthand (type-less) form as well.  The shorthand two-pair
rendering (src/query/utils.js line 95) hardcodes `=`: a type-less descriptor
with `operator: '<'` and pairs `a: 'x'`, `b: 'y'` renders
`" JOIN b ON a.x = b.y"`, not `" JOIN b ON a.x < b.y"`. -/
theorem C3_counterexample_shorthand_ignores_operator :
    parseJoins [{ operator := some "<", others := [("a", "x"), ("b", "y")] }] =
      Except.ok " JOIN b ON a.x = b.y" ∧
    (" JOIN b ON a.x = b.y" : String) ≠ " JOIN b ON a.x < b.y" :=
  ⟨rfl, by decide⟩

/-- C3 (amended): for a join descriptor with exactly two table-column entries
(keys not among the reserved `type`, `on`, `operator`) and no `on` condition,
`parseJoins` renders `" <type> <table2> ON <table1>.<column1> <operator>
<table2>.<column2>"`, the join type defaulting to `JOIN` and the operator to
`=`; the supplied `operator` is honored in the explicit-type form, while the
shorthand (type-less) form always renders `=`. -/
theorem C3_two_pair_join_rendering
    (t1 c1 t2 c2 ty : String) (op : Option String)
    (h1 : notReservedKey t1 = true) (h2 : notReservedKey t2 = true) :
    parseJoins [{ type := some ty, operator := op, others := [(t1, c1), (t2, c2)] }] =
      Except.ok (" " ++ ty ++ " " ++ t2 ++ " ON " ++ t1 ++ "." ++ c1 ++ " "
        ++ op.getD "=" ++ " " ++ t2 ++ "." ++ c2) ∧
    parseJoins [{ operator := op, others := [(t1, c1), (t2, c2)] }] =
      Except.ok (" JOIN " ++ t2 ++ " ON " ++ t1 ++ "." ++ c1 ++ " = "
        ++ t2 ++ "." ++ c2) := by
  constructor <;>
    simp [parseJoins_singleton, renderJoin, jsTruthy, List.filter, h1, h2]

/-- C3 witness: the amended rendering at a concrete descriptor. -/
theorem C3_two_pair_join_rendering_witness :
    parseJoins [{ type := some "LEFT JOIN", operator := some "<",
                  others := [("a", "x"), ("b", "y")] }] =
      Except.ok " LEFT JOIN b ON a.x < b.y" := by
  have h := (C3_two_pair_join_rendering "a" "x" "b" "y" "LEFT JOIN" (some "<")
    (by decide) (by decide)).1
  exact h

/-- C7: for a sort mapping (numeric leaf directions), `parseSort` renders
exactly one `name token` per leaf — via the claim-side `renderSortEntry`,
which emits one token per leaf — and the token is `ASC` if and only if the
direction is exactly 1, `DESC` for every other number; the empty mapping
renders nothing. -/
theorem C7_parseSort_token_per_leaf (entries : List (String × SortVal))
    (h : entries ≠ []) :
    parseSort (SortSpec.map entries) =
      " ORDER BY " ++ String.intercalate ", "
        ((entries.map renderSortEntry).filter (fun s => !(s == ""))) ∧
    (∀ d : Int, (dirToken d = "ASC" ↔ d = 1) ∧ (d ≠ 1 → dirToken d = "DESC")) ∧
    parseSort (SortSpec.map []) = "" := by
  refine ⟨?_, ?_, rfl⟩
  · have hlen : entries.length ≠ 0 := by
      simpa [List.length_eq_zero] using h
    have hfun : (fun r : String × SortVal =>
        match r.2 with
        | SortVal.num columns =>
            r.1 ++ " " ++ (if columns = 1 then "ASC" else "DESC")
        | SortVal.obj columns =>
            String.intercalate ", "
              (columns.map (fun c =>
                r.1 ++ "." ++ c.1 ++ " " ++ (if c.2 = 1 then "ASC" else "DESC"))))
        = renderSortEntry := by
      funext r
      rcases r with ⟨name, val⟩
      cases val <;> rfl
    simp only [parseSort, if_pos hlen, hfun]
  · intro d
    refine ⟨?_, fun hd => by simp [dirToken, hd]⟩
    by_cases hd : d = 1 <;> simp [dirToken, hd]

/-- C7 witness: the token rendering at a concrete mapping with a flat entry
and a nested entry. -/
theorem C7_parseSort_token_per_leaf_witness :
    parseSort (SortSpec.map [("a", SortVal.num 1), ("t", SortVal.obj [("c", -1)])]) =
      " ORDER BY a ASC, t.c DESC" := by
  have h := (C7_parseSort_token_per_leaf
    [("a", SortVal.num 1), ("t", SortVal.obj [("c", -1)])] (by decide)).1
  exact h

/-- C6: `insertQuery` chooses exactly one of three statement forms by
priority — `INSERT IGNORE` when `uniqueColumn` is truthy (even when
`onDuplicateUpdateFields` is also non-empty), else `ON DUPLICATE KEY UPDATE`
when that list is non-empty, else a plain `INSERT`; and the documented
example `{table: 't', insertData: [{a:1},{a:2}], uniqueColumn: 'a'}` produces
exactly `INSERT IGNORE INTO t (a) VALUES (1), (2)`. -/
theorem C6_insert_form_priority :
    (∀ (p : InsertParams) (d : InsertData) (columns values : String),
      p.insertData = some d →
      insertColsVals d p.dateFields = Except.ok (columns, values) →
      insertQuery p = Except.ok (
        if jsTruthy p.uniqueColumn then
          "INSERT IGNORE INTO " ++ p.table ++ " " ++ columns ++ " VALUES " ++ values
        else if p.onDuplicateUpdateFields.length > 0 then
          "INSERT INTO " ++ p.table ++ " " ++ columns ++ " VALUES " ++ values
            ++ " ON DUPLICATE KEY UPDATE "
            ++ String.intercalate ", "
              (p.onDuplicateUpdateFields.map
                (fun field => field ++ " = VALUES(" ++ field ++ ")"))
        else
          "INSERT INTO " ++ p.table ++ " " ++ columns ++ " VALUES " ++ values)) ∧
    insertQuery
      { table := "t",
        insertData := some (InsertData.rows [[("a", Scalar.num 1)], [("a", Scalar.num 2)]]),
        uniqueColumn := some "a" } =
      Except.ok "INSERT IGNORE INTO t (a) VALUES (1), (2)" ∧
    insertQuery
      { table := "t",
        insertData := some (InsertData.rows [[("a", Scalar.num 1)], [("a", Scalar.num 2)]]),
        uniqueColumn := some "a", onDuplicateUpdateFields := ["a"] } =
      Except.ok "INSERT IGNORE INTO t (a) VALUES (1), (2)" := by
  refine ⟨?_, rfl, rfl⟩
  intro p d columns values hd hcv
  simp only [insertQuery, hd, hcv, Except.bind]
  split <;> [rfl; (split <;> rfl)]

/-- C6 witness: the priority rule applied at a concrete call where
`uniqueColumn` is absent and `onDuplicateUpdateFields` is non-empty. -/
theorem C6_insert_form_priority_witness :
    insertQuery
      { table := "x", insertData := some (InsertData.row [("c", Scalar.str "v")]),
        onDuplicateUpdateFields := ["c"] } =
      Except.ok "INSERT INTO x (c) VALUES (\"v\") ON DUPLICATE KEY UPDATE c = VALUES(c)" := by
  have h := C6_insert_form_priority.1
    { table := "x", insertData := some (InsertData.row [("c", Scalar.str "v")]),
      onDuplicateUpdateFields := ["c"] }
    (InsertData.row [("c", Scalar.str "v")]) "(c)" "(\"v\")" rfl rfl
  exact h

/-- C9: with non-empty `table` and `where`, `deleteSQL` emits
`DELETE <table> FROM <table>`, then — each only when the corresponding option
is present (and truthy) — the joins fragment, ` WHERE <where>`, the
`ORDER BY` fragment and ` LIMIT <n>`, in exactly that order; and
`{table: 'users', where: 'age > 30'}` yields exactly
`DELETE users FROM users WHERE age > 30`. -/
theorem C9_delete_clause_order :
    (∀ (p : DeleteParams) (joinsFragment : String),
      p.table ≠ "" → p.whereClause ≠ "" →
      parseJoinsOpt p.joins = Except.ok joinsFragment →
      deleteSQL p = Except.ok ("DELETE " ++ p.table ++ " FROM " ++ p.table
        ++ joinsFragment ++ " WHERE " ++ p.whereClause
        ++ (if !p.sort.isFalsy then parseSort p.sort else "")
        ++ (match p.limit with
            | some l => if l.isTruthy then " LIMIT " ++ l.render else ""
            | Option.none => ""))) ∧
    deleteSQL { table := "users", whereClause := "age > 30" } =
      Except.ok "DELETE users FROM users WHERE age > 30" := by
  refine ⟨?_, rfl⟩
  intro p jf h1 h2 hj
  unfold deleteSQL
  rw [if_neg (by simp [h1]), if_neg (by simp [h2]), hj]
  show Except.ok _ = _
  rw [if_pos h2]
  cases hsort : p.sort.isFalsy <;>
    rcases hl : p.limit with _ | l
  · simp [String.append_assoc]
  · cases hlt : l.isTruthy <;> simp [hlt, String.append_assoc]
  · simp [String.append_assoc]
  · cases hlt : l.isTruthy <;> simp [hlt, String.append_assoc]

/-- C9 witness: the clause order at a concrete call with a limit. -/
theorem C9_delete_clause_order_witness :
    deleteSQL { table := "t", whereClause := "w", limit := some (NumStr.num 5) } =
      Except.ok "DELETE t FROM t WHERE w LIMIT 5" := by
  have h := C9_delete_clause_order.1
    { table := "t", whereClause := "w", limit := some (NumStr.num 5) } ""
    (by decide) (by decide) rfl
  exact h

/-- C10 counterexample: on `{table: 't', columns: 'a'}` (no aggregates) the
two SELECT implementations disagree — src/query/selectQuery.js emits
`SELECT * FROM t` while the minified bundle keeps the parsed columns and
emits `SELECT a FROM t`. -/
theorem C10_counterexample_implementations_differ :
    selectQuery { table := some "t", columns := ColsSpec.str "a" } =
      Except.ok "SELECT * FROM t" ∧
    selectQueryMin { table := some "t", columns := ColsSpec.str "a" } =
      Except.ok "SELECT a FROM t" ∧
    (Except.ok "SELECT * FROM t" : Except String String) ≠ Except.ok "SELECT a FROM t" :=
  ⟨rfl, rfl, fun h => absurd (Except.ok.inj h) (by decide)⟩

/-- C10 (amended): the two SELECT implementations return the same output on
every configuration in which `aggregates` is present and the accumulated
select-list is non-empty.  (They do not agree on every configuration: when
`aggregates` is absent, src/query/selectQuery.js emits `*` while the minified
bundle keeps the accumulated list, which can differ —
see the counterexample at `{table: 't', columns: 'a'}` — though not always:
with `columns: '*'` both still return `SELECT * FROM t`.) -/
theorem C10_select_implementations_agree (config : SelectParams) (aggs : List AggDesc)
    (hagg : config.aggregates = some aggs)
    (hne : selectListOf config ≠ "") :
    selectQuery config = selectQueryMin config := by
  have hb : (selectListOf config == "") = false := by
    simp [hne]
  simp only [selectListOf, hagg] at hb
  simp only [selectQuery, selectQueryMin, hagg]
  rcases hc : ctePreamble config with ⟨rq, mt⟩
  simp only [hc, hb, Bool.false_eq_true, if_false]

/-- C10 witness: with aggregates present both implementations agree at a
concrete configuration. -/
theorem C10_select_implementations_agree_witness :
    selectQuery
      { table := some "t", columns := ColsSpec.str "a",
        aggregates := some [{ functions := [("COUNT", "id")] }] } =
    selectQueryMin
      { table := some "t", columns := ColsSpec.str "a",
        aggregates := some [{ functions := [("COUNT", "id")] }] } := by
  exact C10_select_implementations_agree _ _ rfl (by decide)

end AgileQuery
